import Mathlib

/-!
Verification of `pr_agent/tools/pr_deployment_impact.py` and `web_app/app.py`.

We shallow-embed the deployment-impact pipeline: the Jinja2 strict-undefined
prompt rendering, the Python name-resolution that `_get_prediction` performs
when it falls back to the default prompts, the orchestrating `run()` method as
a trace-producing function over an environment of collaborator outcomes, the
report formatter `_prepare_deployment_impact_analysis`, and the Flask
`/api/analyze` endpoint.
-/

namespace DeployImpact

/-! ## Python exceptions (all `Exception`-derived, hence caught by
`except Exception` in `run()`). -/

inductive PyExc where
  /-- The `NameError: name '...' is not defined` (unresolved global name). -/
  | nameError (n : String)
  /-- The `UnboundLocalError` (local referenced before assignment). -/
  | unboundLocal (n : String)
  /-- Jinja2 `UndefinedError` raised by `StrictUndefined` rendering: the
  TemplateRenderError of the spec, carrying the missing variable. -/
  | templateRenderError (missing : String)
  /-- any other `Exception`, carrying `str(e)`. -/
  | exc (msg : String)
deriving DecidableEq, Repr

/-! ## PromptRenderer

Modelled from the spec: the rendering itself is performed by the external
Jinja2 library (`Environment(undefined=StrictUndefined).from_string(t).render(**vars)`,
`pr_deployment_impact.py` lines 247-253), which is not part of this
repository.  Per spec §4.2 a template is literal text interleaved with
`\x7b\x7bname\x7d\x7d` placeholders; strict-undefined substitution replaces
each placeholder by the context value of its name and fails, naming the
missing variable, as soon as a placeholder's name is absent from the
context. -/

inductive Tok where
  | lit (s : String)
  | var (n : String)
deriving DecidableEq, Repr

/-- A parsed template: what `env.from_string` produces. -/
abbrev Template := List Tok

/-- The rendering context (`**self.vars`): an association of variable names
to string values. -/
abbrev Ctx := List (String × String)

/-- Context lookup (first binding wins, as in a Python dict built once). -/
def lookupCtx (ctx : Ctx) (n : String) : Option String :=
  match ctx with
  | [] => none
  | (k, v) :: rest => if k = n then some v else lookupCtx rest n

/-- Strict-undefined rendering: substitute placeholders left to right,
failing on the first placeholder whose name is unbound. -/
def render (t : Template) (ctx : Ctx) : Except PyExc String :=
  match t with
  | [] => .ok ""
  | .lit s :: rest => (render rest ctx).map (fun r => s ++ r)
  | .var n :: rest =>
    match lookupCtx ctx n with
    | none => .error (.templateRenderError n)
    | some v => (render rest ctx).map (fun r => v ++ r)

/-- The full substitution a successful render produces: every placeholder
replaced by its context value (`getD ""` is never exercised when every
referenced variable is bound). -/
def substAll (t : Template) (ctx : Ctx) : String :=
  match t with
  | [] => ""
  | .lit s :: rest => s ++ substAll rest ctx
  | .var n :: rest => (lookupCtx ctx n).getD "" ++ substAll rest ctx

/-- The variable names a template references. -/
def refs (t : Template) : List String :=
  t.filterMap (fun tok => match tok with | .lit _ => none | .var n => some n)

/-! ## Python name resolution in `_get_prediction` (lines 243-244)

`_get_prediction` evaluates the bare names `default_system_prompt` /
`default_user_prompt` in its `else` branches.  Python resolves a name inside
a function body as: if the name is assigned anywhere in the function it is a
local (unbound access raises `UnboundLocalError`); otherwise it is looked up
among the module's global names (failure raises `NameError`). -/

/-- Names bound at module level of `pr_deployment_impact.py`: the imports
(lines 1-22) and the class statement (line 25). -/
def moduleGlobalNames : List String :=
  ["asyncio", "copy", "traceback", "datetime", "partial", "Dict", "List",
   "Optional", "Environment", "StrictUndefined", "BaseAiHandler",
   "LiteLLMAIHandler", "add_ai_metadata_to_diff_files", "get_pr_diff",
   "retry_with_fallback_models", "TokenHandler", "ModelType", "load_yaml",
   "get_settings", "get_git_provider_with_context", "get_main_pr_language",
   "get_logger", "PRDeploymentImpact"]

/-- The local names of `_get_prediction`: its parameters and every name the
body assigns (lines 227-266).  `default_system_prompt` and
`default_user_prompt` are NOT among them: they are assigned only in
`__init__` (lines 81, 87) and local scopes do not nest across methods. -/
def getPredictionLocalNames : List String :=
  ["self", "model", "system_prompt", "user_prompt", "env",
   "system_prompt_template", "user_prompt_template", "e", "response",
   "finish_reason"]

/-- The locals of `_get_prediction` already bound when line 243 (the first
prompt-selection expression) is evaluated: just the parameters. -/
def boundAtLine243 : List String := ["self", "model"]

/-- Evaluate a bare name occurring in a function body. -/
def evalNameInFunction (localNames bound globalNames : List String)
    (n : String) : Except PyExc String :=
  if localNames.contains n then
    if bound.contains n then .ok n else .error (.unboundLocal n)
  else if globalNames.contains n then .ok n
  else .error (.nameError n)

end DeployImpact

namespace DeployImpact

/-! ## The compiled-in default prompts (`__init__`, lines 81-130), in their
parsed-template form. -/

/-- The `default_system_prompt` (lines 81-85): pure literal, no placeholders. -/
def defaultSystemPromptT : Template :=
  [Tok.lit "\n        You are a deployment impact analyzer. Your task is to analyze code changes in a pull request and predict \n        how they might affect production systems. Focus on identifying dependencies, infrastructure requirements, \n        potential downtime needs, and services that might be affected.\n        "]

/-- The `default_user_prompt` (lines 87-130). -/
def defaultUserPromptT : Template :=
  [Tok.lit "\n        Please analyze the following pull request and predict its deployment impact:\n        \n        # Pull Request Information\n        - Title: ",
   Tok.var "title",
   Tok.lit "\n        - Branch: ",
   Tok.var "branch",
   Tok.lit "\n        - Description: ",
   Tok.var "description",
   Tok.lit "\n        - Main Language: ",
   Tok.var "language",
   Tok.lit "\n        \n        # Code Changes\n        ```diff\n        ",
   Tok.var "diff",
   Tok.lit "\n        ```\n        \n        # Commit Messages\n        ",
   Tok.var "commit_messages_str",
   Tok.lit "\n        \n        Please provide a comprehensive deployment impact analysis including:\n        \n        1. System Dependency Analysis:\n           - Identify affected components and services\n           - Map code changes to infrastructure resources\n           - Highlight configuration dependencies\n        \n        2. Change Impact Assessment:\n           - Identify modified services, endpoints, or data models\n           - Detect schema changes requiring migrations\n           - Flag changes to performance-critical paths\n        \n        3. Deployment Requirements:\n           - Estimate resource requirement changes (memory, CPU, storage)\n           - Identify potential downtime requirements\n           - List services requiring coordinated deployments\n        \n        4. Deployment Risk Score:\n           - Provide a risk score (Low, Medium, High) with justification\n           - Highlight specific concerns requiring extra attention\n        \n        5. Recommended Deployment Strategy:\n           - Suggest the safest approach to deploy these changes\n           - Recommend monitoring and rollback strategies\n        \n        ",
   Tok.var "extra_instructions",
   Tok.lit "\n        "]

/-- Evaluating the `else` branch of lines 243/244: the bare name would, if it
resolved, denote the corresponding default template; it never does. -/
def lookupDefaultPrompt (n : String) (tpl : Template) : Except PyExc Template :=
  match evalNameInFunction getPredictionLocalNames boundAtLine243
      moduleGlobalNames n with
  | .ok _ => .ok tpl
  | .error e => .error e

/-- Outcome of `_get_prediction`: the returned text or the raised exception,
plus whether `self.ai_handler.chat_completion` was reached. -/
structure GetPredOutcome where
  result : Except PyExc String
  modelCalled : Bool
deriving Repr

/-- The `_get_prediction` (lines 227-266).  `hasSec` models
`hasattr(get_settings(), 'pr_deployment_impact_prompt')`; `hasSys` / `hasUsr`
model `hasattr(..., 'system')` / `hasattr(..., 'user')` on that section;
`settingsSys` / `settingsUsr` are the section's templates; `vars` is
`self.vars` with the diff already filled in (line 238); `modelResponse` is
what `chat_completion` returns when reached. -/
def getPrediction (hasSec hasSys hasUsr : Bool)
    (settingsSys settingsUsr : Template) (vars : Ctx)
    (modelResponse : String) : GetPredOutcome :=
  match (if hasSec && hasSys then Except.ok settingsSys
         else lookupDefaultPrompt "default_system_prompt" defaultSystemPromptT) with
  | .error e => ⟨.error e, false⟩
  | .ok sysT =>
    match (if hasSec && hasUsr then Except.ok settingsUsr
           else lookupDefaultPrompt "default_user_prompt" defaultUserPromptT) with
    | .error e => ⟨.error e, false⟩
    | .ok usrT =>
      match render sysT vars with
      | .error e => ⟨.error e, false⟩
      | .ok _ =>
        match render usrT vars with
        | .error e => ⟨.error e, false⟩
        | .ok _ => ⟨.ok modelResponse, true⟩

/-! ## ImpactReportFormatter -/

/-- The fixed report header (line 275).  The source file stores the rocket
emoji as the four mojibake characters U+00F0 U+0178 U+0161 U+20AC. -/
def reportHeader : String := "# Deployment Impact Analysis ðŸš€\n\n"

/-- The `_prepare_deployment_impact_analysis` (lines 268-278). -/
def prepareDeploymentImpactAnalysis (prediction : String) : String :=
  reportHeader ++ prediction

/-! ## PipelineOrchestrator: `run()` (lines 146-203) -/

/-- The `self.progress` (lines 143-144). -/
def progressText : String :=
  "## Analyzing Deployment Impact\n\n"
    ++ "\nWork in progress ...<br>\n<img src=\"https://codium.ai/images/pr_agent/dual_ball_loading-crop.gif\" width=48>"

/-- The best-effort failure notice (lines 198-200). -/
def failureNotice : String :=
  "Failed to analyze deployment impact. See logs for more details."

/-- Externally visible side effects of one `run()`. -/
inductive Event where
  /-- The `publish_comment(text, is_temporary=True)`: the provisional marker. -/
  | publishTemp (text : String)
  /-- The `publish_comment(text)`: a new non-temporary comment. -/
  | publishComment (text : String)
  /-- The `publish_persistent_comment(text, ...)`. -/
  | publishPersistent (text : String)
  /-- The `remove_initial_comment()`. -/
  | removeInitial
  /-- the AI model was invoked (`chat_completion`). -/
  | modelCall
  /-- The `print(...)` to standard output (CLI mode). -/
  | printStdout (text : String)
deriving DecidableEq, Repr

/-- Outcome of `await retry_with_fallback_models(self._prepare_prediction, ...)`
(line 162) together with `_prepare_prediction` (lines 205-225).

Modelled from the spec: `retry_with_fallback_models` lives in
`pr_agent.algo.pr_processing`, which is not part of this repository's
sources.  Per spec §4.4 it drives `_prepare_prediction` over the ordered
model list with bounded retries; an exhausted chain yields no prediction
rather than an exception, while a fatal template-rendering error (spec §7)
propagates.  `_prepare_prediction` itself (in the sources) sets
`self.prediction` to the model text when the budgeted diff is non-empty and
to `None` when the diff is empty. -/
inductive PredOutcome where
  /-- the budgeted diff was empty: `self.prediction = None`, no model call. -/
  | diffEmpty
  /-- every fallback model failed: no prediction, a legitimate non-result. -/
  | exhausted
  /-- a model call succeeded: `self.prediction = s`. -/
  | predicted (s : String)
  /-- an exception propagated out of the prediction step (e.g. the
  `NameError` / template `UndefinedError` re-raised by `_get_prediction`). -/
  | raised (e : PyExc)
deriving DecidableEq, Repr

/-- The `self.prediction` after the prediction step. -/
def predValue : PredOutcome → Option String
  | .predicted s => some s
  | _ => none

/-- Model calls the prediction step performs. -/
def predEvents : PredOutcome → List Event
  | .diffEmpty => []
  | .exhausted => [Event.modelCall]
  | .predicted _ => [Event.modelCall]
  | .raised _ => []

/-- Python truthiness of `self.prediction` negated: `not self.prediction`
is true for `None` and for the empty string. -/
def pyFalsy : Option String → Bool
  | none => true
  | some s => s.isEmpty

/-- One `run()`'s collaborators and configuration.  The `...Fails` flags say
whether the corresponding git-provider call raises (an `Exception`). -/
structure Env where
  /-- The `self.git_provider.get_files()` (line 151). -/
  files : List String
  /-- The `get_settings().config.publish_output`. -/
  publishOutput : Bool
  /-- The `hasattr(get_settings(), 'pr_deployment_impact')`. -/
  hasDeploymentSection : Bool
  /-- The `hasattr(get_settings().pr_deployment_impact, 'persistent_comment')`. -/
  hasPersistentAttr : Bool
  /-- The `get_settings().pr_deployment_impact.persistent_comment`. -/
  persistentComment : Bool
  /-- outcome of the prediction step (line 162). -/
  predictionStep : PredOutcome
  /-- The `publish_comment(self.progress, is_temporary=True)` raises (line 159). -/
  publishProgressFails : Bool
  /-- the analysis publish (line 175 or 182) raises. -/
  publishAnalysisFails : Bool
  /-- The `remove_initial_comment()` raises (lines 164, 184, 201). -/
  removeInitialFails : Bool
  /-- the best-effort failure notice publish (line 198) raises. -/
  failureNoticeFails : Bool
  /-- The `self.cli_mode`. -/
  cliMode : Bool
  /-- The `get_settings().data["artifact"]` before the run, if set. -/
  initialData : Option String
deriving DecidableEq, Repr

/-- What one `run()` produces. -/
structure RunResult where
  /-- side effects, in order. -/
  trace : List Event
  /-- the Python return value of `run()`. -/
  retval : Option String
  /-- an exception escaping `run()`, if any. -/
  raised : Option PyExc
  /-- The `get_settings().data["artifact"]` after the run. -/
  artifactData : Option String
deriving DecidableEq, Repr

/-- The `try` body of `run()` (lines 150-191): events so far, the exception
it raises (if any), and the artifact slot.  In the raising cases the
artifact slot is untouched (`env.initialData`). -/
def runTryBody (env : Env) : List Event × Option PyExc × Option String :=
  -- line 158-159: post the provisional marker when publishing is enabled
  let step1 : List Event × Option PyExc :=
    if env.publishOutput then
      if env.publishProgressFails then ([], some (.exc "publish_comment"))
      else ([Event.publishTemp progressText], none)
    else ([], none)
  match step1 with
  | (evs, some e) => (evs, some e, env.initialData)
  | (evs, none) =>
    -- line 162: the prediction step
    match env.predictionStep with
    | .raised e => (evs ++ predEvents (.raised e), some e, env.initialData)
    | step =>
      let evs := evs ++ predEvents step
      -- lines 163-165: no prediction → remove marker and return
      if pyFalsy (predValue step) then
        if env.removeInitialFails then
          (evs, some (.exc "remove_initial_comment"), env.initialData)
        else (evs ++ [Event.removeInitial], none, env.initialData)
      else
        -- line 168: format the report
        let report := prepareDeploymentImpactAnalysis
          ((predValue step).getD "")
        if env.publishOutput then
          -- lines 171-184: publish exactly one comment, then remove marker
          let usePersistent := env.hasDeploymentSection
            && env.hasPersistentAttr && env.persistentComment
          if env.publishAnalysisFails then
            (evs, some (.exc "publish"), env.initialData)
          else
            let evs := evs ++ [if usePersistent
              then Event.publishPersistent report
              else Event.publishComment report]
            if env.removeInitialFails then
              (evs, some (.exc "remove_initial_comment"), env.initialData)
            else (evs ++ [Event.removeInitial], none, env.initialData)
        else
          -- lines 185-191: stash the artifact in settings; print in CLI mode
          (evs ++ (if env.cliMode then [Event.printStdout report] else []),
           none, some report)

/-- The `except Exception` handler (lines 193-203): log, then inside a bare
`try`/`except: pass` publish a failure notice and remove the marker.  A
failure of the notice publish aborts the inner block, skipping the
removal; nothing propagates. -/
def runHandler (env : Env) (evs : List Event) : List Event :=
  if env.publishOutput then
    if env.failureNoticeFails then evs
    else
      let evs := evs ++ [Event.publishComment failureNotice]
      if env.removeInitialFails then evs
      else evs ++ [Event.removeInitial]
  else evs

/-- The `run()` (lines 146-203). -/
def runImpact (env : Env) : RunResult :=
  -- lines 151-153: a PR with no files is skipped outright
  if env.files.isEmpty then ⟨[], none, none, env.initialData⟩
  else
    match runTryBody env with
    | (evs, none, data) => ⟨evs, none, none, data⟩
    | (evs, some _, _) => ⟨runHandler env evs, none, none, env.initialData⟩

end DeployImpact

namespace DeployImpact

/-! ## Constructor frame effect (`__init__`, lines 56-62) -/

/-- The value of `config.enable_ai_metadata` after `__init__` runs:
unchanged when description files are present and `config.is_auto_command`
and `config.enable_ai_metadata` all hold, otherwise forced to `False` by
`get_settings().set(...)` (line 61). -/
def constructorEnableAiMetadata (prDescriptionFiles isAutoCommand
    enableAiMetadata : Bool) : Bool :=
  if prDescriptionFiles && isAutoCommand && enableAiMetadata then
    enableAiMetadata
  else false

/-! ## The Flask endpoint (`web_app/app.py`) -/

/-- A JSON payload from `/api/analyze`. -/
inductive ApiPayload where
  /-- The `jsonify(\x7b'result': s\x7d)`. -/
  | result (s : String)
  /-- The `jsonify(\x7b'error': s\x7d)`. -/
  | error (s : String)
deriving DecidableEq, Repr

/-- The `run_analysis` (app.py lines 61-69): await `run()`, then read the
artifact back out of the shared settings object. -/
def runAnalysis (env : Env) : String :=
  match (runImpact env).artifactData with
  | some a => a
  | none => "No analysis result available"

/-- The `api_analyze` (app.py lines 39-59).  `prUrl` is `data.get('pr_url')`
(`none` for a missing key); `initFailureMsg`, when set, is `str(e)` for an
exception raised while setting up or constructing `PRDeploymentImpact`.
Line 49 forces `config.publish_output = False` before the run.  Returns the
payload and the HTTP status. -/
def apiAnalyze (prUrl : Option String) (env : Env)
    (initFailureMsg : Option String) : ApiPayload × Nat :=
  if pyFalsy prUrl then (ApiPayload.error "PR URL is required", 400)
  else
    match initFailureMsg with
    | some msg => (ApiPayload.error msg, 500)
    | none =>
      (ApiPayload.result (runAnalysis { env with publishOutput := false }),
       200)

/-! ## Trace observations -/

/-- Provisional-marker post. -/
def isTempPost : Event → Bool
  | .publishTemp _ => true
  | _ => false

/-- Marker removal. -/
def isRemove : Event → Bool
  | .removeInitial => true
  | _ => false

/-- Any non-temporary publish (new comment or persistent update). -/
def isNonTempPublish : Event → Bool
  | .publishComment _ => true
  | .publishPersistent _ => true
  | _ => false

/-- A model invocation. -/
def isModelCall : Event → Bool
  | .modelCall => true
  | _ => false

/-- A persistent-comment update of the given text. -/
def isPersistentPublishOf (text : String) : Event → Bool
  | .publishPersistent s => s == text
  | _ => false

/-- A new (non-temporary, non-persistent) comment of the given text. -/
def isNewCommentOf (text : String) : Event → Bool
  | .publishComment s => s == text
  | _ => false

end DeployImpact

namespace DeployImpact

/-! ## Concrete environments used to instantiate the claims

Field order: files, publishOutput, hasDeploymentSection, hasPersistentAttr,
persistentComment, predictionStep, publishProgressFails,
publishAnalysisFails, removeInitialFails, failureNoticeFails, cliMode,
initialData. -/

/-- Publishing enabled; the analysis publish raises and the best-effort
failure notice also raises. -/
def envDoubleFailure : Env :=
  ⟨["f.py"], true, false, false, false, .predicted "Risk: Low", false,
   true, false, true, false, none⟩

/-- Publishing enabled; everything succeeds. -/
def envHappyPublish : Env :=
  ⟨["f.py"], true, true, true, true, .predicted "Risk: Low", false, false,
   false, false, false, none⟩

/-- Publishing enabled; the prediction step propagates a
template-rendering error; all provider calls succeed. -/
def envTemplateError : Env :=
  ⟨["f.py"], true, false, false, false,
   .raised (.templateRenderError "title"), false, false, false, false,
   false, none⟩

/-- Publishing disabled (as the web endpoint forces); a successful
prediction; CLI mode. -/
def envNoPublish : Env :=
  ⟨["f.py"], false, false, false, false, .predicted "Risk: Low", false,
   false, false, false, true, none⟩

/-- Publishing disabled (as the web endpoint forces); the prediction step
raises (the `NameError` of the default-template configuration); no stale
artifact in the settings object. -/
def envRunFailure : Env :=
  ⟨["f.py"], false, false, false, false,
   .raised (.nameError "default_system_prompt"), false, false, false,
   false, true, none⟩

/-! ## Claims -/

/-- C1 counterexample: with the model returning `"Risk: Low"`, the
formatted report is NOT the claimed string
`"# Deployment Impact Analysis\n\nRisk: Low"` — the header in the source
(line 275) carries a trailing mojibake rocket-emoji sequence. -/
theorem prepare_analysis_plain_header_false :
    prepareDeploymentImpactAnalysis "Risk: Low" ≠
      "# Deployment Impact Analysis\n\nRisk: Low" := by
  decide

/-- C1 (amended): for every prediction text `p`,
`_prepare_deployment_impact_analysis` yields exactly the fixed header
`"# Deployment Impact Analysis ðŸš€\n\n"` (the words,
a space, the four mojibake characters of the rocket emoji, two newlines)
concatenated with `p` and nothing else; in particular for `p = "Risk: Low"`
the report is that header followed by `"Risk: Low"`. -/
theorem prepare_analysis_header_concat :
    (∀ p, prepareDeploymentImpactAnalysis p =
      "# Deployment Impact Analysis ðŸš€\n\n" ++ p) ∧
    prepareDeploymentImpactAnalysis "Risk: Low" =
      "# Deployment Impact Analysis ðŸš€\n\nRisk: Low" :=
  ⟨fun _ => rfl, rfl⟩

/-- C2: when the settings object has no `pr_deployment_impact_prompt`
section, `_get_prediction` raises
`NameError: default_system_prompt` before any model call: the fallback
names are locals of `__init__`, not of `_get_prediction`, and are not
module globals. -/
theorem get_prediction_default_raises_name_error
    (hasSys hasUsr : Bool) (ss su : Template) (vars : Ctx) (resp : String) :
    (getPrediction false hasSys hasUsr ss su vars resp).result =
        Except.error (PyExc.nameError "default_system_prompt") ∧
    (getPrediction false hasSys hasUsr ss su vars resp).modelCalled = false := by
  constructor <;> rfl

end DeployImpact

namespace DeployImpact

/-- The `refs` ignores a leading literal. -/
theorem refs_cons_lit (s : String) (rest : List Tok) :
    refs (Tok.lit s :: rest) = refs rest := by
  simp [refs]

/-- The `refs` collects a leading placeholder. -/
theorem refs_cons_var (n : String) (rest : List Tok) :
    refs (Tok.var n :: rest) = n :: refs rest := by
  simp [refs]

/-- C5: strict-undefined rendering.  If the template references a variable
absent from the context, rendering fails with a template-render error
naming a missing variable; if every referenced variable is bound,
rendering succeeds with every placeholder substituted (so no unresolved
placeholder remains in the output). -/
theorem render_strict_undefined (t : Template) (ctx : Ctx) :
    ((∃ X, X ∈ refs t ∧ lookupCtx ctx X = none) →
      ∃ n, render t ctx = .error (.templateRenderError n) ∧
        lookupCtx ctx n = none) ∧
    ((∀ X, X ∈ refs t → (lookupCtx ctx X).isSome) →
      render t ctx = .ok (substAll t ctx)) := by
  induction t with
  | nil =>
    refine ⟨fun ⟨X, hX, _⟩ => absurd hX (by simp [refs]), fun _ => rfl⟩
  | cons tok rest ih =>
    cases tok with
    | lit s =>
      constructor
      · rintro ⟨X, hX, hnone⟩
        rw [refs_cons_lit] at hX
        obtain ⟨n, hr, hn⟩ := ih.1 ⟨X, hX, hnone⟩
        exact ⟨n, by simp [render, hr, Except.map], hn⟩
      · intro h
        have hrest := ih.2 (fun X hX => h X (by rw [refs_cons_lit]; exact hX))
        simp [render, substAll, hrest, Except.map]
    | var n =>
      constructor
      · rintro ⟨X, hX, hnone⟩
        rw [refs_cons_var, List.mem_cons] at hX
        cases hlk : lookupCtx ctx n with
        | none => exact ⟨n, by simp [render, hlk], hlk⟩
        | some v =>
          have hX' : X ∈ refs rest := by
            rcases hX with hEq | hMem
            · exact absurd hnone (by simp [hEq, hlk])
            · exact hMem
          obtain ⟨m, hr, hm⟩ := ih.1 ⟨X, hX', hnone⟩
          exact ⟨m, by simp [render, hlk, hr, Except.map], hm⟩
      · intro h
        have hn : (lookupCtx ctx n).isSome :=
          h n (by rw [refs_cons_var]; exact List.mem_cons_self n _)
        obtain ⟨v, hv⟩ := Option.isSome_iff_exists.mp hn
        have hrest := ih.2 (fun X hX =>
          h X (by rw [refs_cons_var]; exact List.mem_cons_of_mem n hX))
        simp [render, substAll, hv, hrest, Except.map]

/-- Witness for C5 at concrete inputs: a template referencing `X` fails
against the empty context, and renders fully against a context binding
`X`. -/
theorem render_strict_undefined_witness :
    (∃ n, render [Tok.var "X"] [] =
        .error (.templateRenderError n) ∧ lookupCtx [] n = none) ∧
    render [Tok.lit "a", Tok.var "X"] [("X", "b")] =
      .ok (substAll [Tok.lit "a", Tok.var "X"] [("X", "b")]) :=
  ⟨(render_strict_undefined [Tok.var "X"] []).1 ⟨"X", by decide, rfl⟩,
   (render_strict_undefined [Tok.lit "a", Tok.var "X"] [("X", "b")]).2
     (by intro X hX
         have hX' : X = "X" := by
           rw [refs_cons_lit, refs_cons_var] at hX
           simpa [refs] using hX
         subst hX'
         decide)⟩

end DeployImpact

namespace DeployImpact

/-- C7: for a PR whose changed-file list is empty, `run()` performs no side
effect at all — no provisional marker, no model invocation, no publish —
leaves the artifact slot untouched, returns `None` and raises nothing. -/
theorem run_empty_files (env : Env) (h : env.files = []) :
    runImpact env = ⟨[], none, none, env.initialData⟩ := by
  simp [runImpact, h]

/-- Witness for C7: a concrete environment with no changed files. -/
theorem run_empty_files_witness :
    runImpact ⟨[], true, true, true, true, .predicted "x", false, false,
      false, false, true, none⟩ = ⟨[], none, none, none⟩ :=
  run_empty_files _ rfl

/-- C6: when the prediction step yields no prediction — empty budgeted diff
or exhausted fallback chain — and the provider calls succeed, `run()`
removes the provisional comment (exactly one removal), publishes no
non-temporary comment at all (no analysis, no error notice), leaves the
artifact slot untouched, returns `None` and raises nothing. -/
theorem run_no_prediction_silent (env : Env)
    (hstep : env.predictionStep = .diffEmpty ∨ env.predictionStep = .exhausted)
    (hpp : env.publishProgressFails = false)
    (hrm : env.removeInitialFails = false)
    (hf : env.files ≠ []) :
    (runImpact env).raised = none ∧
    (runImpact env).retval = none ∧
    (runImpact env).trace.countP isRemove = 1 ∧
    (runImpact env).trace.countP isNonTempPublish = 0 ∧
    (runImpact env).artifactData = env.initialData := by
  obtain ⟨files, po, hds, hpa, pc, ps, ppf, paf, rif, fnf, cm, idata⟩ := env
  simp only at hstep hpp hrm hf ⊢
  subst hpp; subst hrm
  cases files with
  | nil => exact absurd rfl hf
  | cons a l =>
    rcases hstep with h | h <;> subst h <;> cases po <;>
      simp [runImpact, runTryBody, predEvents, predValue, pyFalsy,
        List.countP_cons, isRemove, isNonTempPublish]

/-- Witness for C6: exhausted fallback chain with publishing enabled. -/
theorem run_no_prediction_silent_witness :
    (runImpact ⟨["f.py"], true, false, false, false, .exhausted, false,
        false, false, false, false, none⟩).raised = none ∧
    (runImpact ⟨["f.py"], true, false, false, false, .exhausted, false,
        false, false, false, false, none⟩).retval = none ∧
    (runImpact ⟨["f.py"], true, false, false, false, .exhausted, false,
        false, false, false, false, none⟩).trace.countP isRemove = 1 ∧
    (runImpact ⟨["f.py"], true, false, false, false, .exhausted, false,
        false, false, false, false, none⟩).trace.countP isNonTempPublish = 0 ∧
    (runImpact ⟨["f.py"], true, false, false, false, .exhausted, false,
        false, false, false, false, none⟩).artifactData = none :=
  run_no_prediction_silent _ (Or.inr rfl) rfl rfl (by simp)

end DeployImpact

namespace DeployImpact

/-- C8: on the Predicted path with publishing enabled and provider calls
succeeding, the whole side-effect trace is: marker post, model call, then
exactly one publish of the formatted report — a persistent-comment update
when the `persistent_comment` switch (with its section present) is true,
otherwise one new comment — then the marker removal.  In particular the
report is published exactly once and removal follows the publish. -/
theorem run_predicted_single_publish (env : Env) (s : String)
    (hstep : env.predictionStep = .predicted s) (hs : s ≠ "")
    (hpo : env.publishOutput = true)
    (hpp : env.publishProgressFails = false)
    (hpa : env.publishAnalysisFails = false)
    (hrm : env.removeInitialFails = false)
    (hf : env.files ≠ []) :
    (runImpact env).trace =
      [Event.publishTemp progressText, Event.modelCall,
       (if env.hasDeploymentSection && env.hasPersistentAttr
           && env.persistentComment
        then Event.publishPersistent (prepareDeploymentImpactAnalysis s)
        else Event.publishComment (prepareDeploymentImpactAnalysis s)),
       Event.removeInitial] ∧
    (runImpact env).trace.countP isNonTempPublish = 1 := by
  have hse : s.isEmpty = false := by
    cases hse : s.isEmpty
    · rfl
    · exact absurd ((String.isEmpty_iff s).mp hse) hs
  obtain ⟨files, po, hds, hpa', pc, ps, ppf, paf, rif, fnf, cm, idata⟩ := env
  simp only at hstep hpo hpp hpa hrm hf ⊢
  subst hstep; subst hpo; subst hpp; subst hpa; subst hrm
  cases files with
  | nil => exact absurd rfl hf
  | cons a l =>
    cases hds <;> cases hpa' <;> cases pc <;> constructor <;>
      simp [runImpact, runTryBody, predEvents, predValue, pyFalsy, hse,
        List.countP_cons, isNonTempPublish]

/-- Witness for C8: with the persistent switch on, the trace is marker,
model call, one persistent update of the report, one removal. -/
theorem run_predicted_single_publish_witness :
    (runImpact envHappyPublish).trace =
      [Event.publishTemp progressText, Event.modelCall,
       Event.publishPersistent
         (prepareDeploymentImpactAnalysis "Risk: Low"),
       Event.removeInitial] ∧
    (runImpact envHappyPublish).trace.countP isNonTempPublish = 1 := by
  have h := run_predicted_single_publish envHappyPublish "Risk: Low" rfl
    (by decide) rfl rfl rfl rfl (by simp [envHappyPublish])
  simpa [envHappyPublish] using h

end DeployImpact

namespace DeployImpact

/-- C3 counterexample: publishing enabled, the analysis publish raises and
the best-effort failure notice also raises.  The provisional marker is
posted once and never removed — it remains visible after the
publish-failure terminal state, refuting removal on every terminal path. -/
theorem run_marker_left_dangling :
    (runImpact envDoubleFailure).trace.countP isTempPost = 1 ∧
    (runImpact envDoubleFailure).trace.countP isRemove = 0 := by
  constructor <;> rfl

set_option maxHeartbeats 1600000 in
/-- C3 (amended): the provisional marker is posted at most once and removed
at most once on every run; and provided the marker-removal call and the
best-effort failure-notice publish do not themselves raise, a posted
marker is removed exactly once on every terminal path.  (When the analysis
publish fails and the failure notice also fails, the removal is skipped
and the marker remains — see the counterexample.) -/
theorem run_marker_lifecycle (env : Env) :
    ((runImpact env).trace.countP isTempPost ≤ 1 ∧
     (runImpact env).trace.countP isRemove ≤ 1) ∧
    (env.removeInitialFails = false → env.failureNoticeFails = false →
      0 < (runImpact env).trace.countP isTempPost →
      (runImpact env).trace.countP isRemove = 1) := by
  obtain ⟨files, po, hds, hpa, pc, ps, ppf, paf, rif, fnf, cm, idata⟩ := env
  constructor
  · cases files with
    | nil => simp [runImpact]
    | cons a l =>
      cases hup : (hds && hpa && pc) <;> cases ps with
      | predicted s =>
        cases hse : s.isEmpty <;> cases po <;> cases ppf <;> cases paf <;>
          cases rif <;> cases fnf <;> cases cm <;>
          simp [runImpact, runTryBody, runHandler, predEvents, predValue,
            pyFalsy, hse, hup, List.countP_cons, isTempPost, isRemove]
      | diffEmpty =>
        cases po <;> cases ppf <;> cases rif <;> cases fnf <;>
          simp [runImpact, runTryBody, runHandler, predEvents, predValue,
            pyFalsy, List.countP_cons, isTempPost, isRemove]
      | exhausted =>
        cases po <;> cases ppf <;> cases rif <;> cases fnf <;>
          simp [runImpact, runTryBody, runHandler, predEvents, predValue,
            pyFalsy, List.countP_cons, isTempPost, isRemove]
      | raised e =>
        cases po <;> cases ppf <;> cases rif <;> cases fnf <;>
          simp [runImpact, runTryBody, runHandler, predEvents, predValue,
            pyFalsy, List.countP_cons, isTempPost, isRemove]
  · intro h1 h2
    subst h1; subst h2
    cases files with
    | nil => simp [runImpact]
    | cons a l =>
      cases hup : (hds && hpa && pc) <;> cases ps with
      | predicted s =>
        cases hse : s.isEmpty <;> cases po <;> cases ppf <;> cases paf <;>
          cases cm <;>
          simp [runImpact, runTryBody, runHandler, predEvents, predValue,
            pyFalsy, hse, hup, List.countP_cons, isTempPost, isRemove]
      | diffEmpty =>
        cases po <;> cases ppf <;>
          simp [runImpact, runTryBody, runHandler, predEvents, predValue,
            pyFalsy, List.countP_cons, isTempPost, isRemove]
      | exhausted =>
        cases po <;> cases ppf <;>
          simp [runImpact, runTryBody, runHandler, predEvents, predValue,
            pyFalsy, List.countP_cons, isTempPost, isRemove]
      | raised e =>
        cases po <;> cases ppf <;>
          simp [runImpact, runTryBody, runHandler, predEvents, predValue,
            pyFalsy, List.countP_cons, isTempPost, isRemove]

/-- Witness for C3 (amended) on a concrete successful publish run: the
marker is posted once and removed once. -/
theorem run_marker_lifecycle_witness :
    ((runImpact envHappyPublish).trace.countP isTempPost ≤ 1 ∧
     (runImpact envHappyPublish).trace.countP isRemove ≤ 1) ∧
    (runImpact envHappyPublish).trace.countP isRemove = 1 :=
  ⟨(run_marker_lifecycle envHappyPublish).1,
   (run_marker_lifecycle envHappyPublish).2 rfl rfl (by decide)⟩

end DeployImpact

namespace DeployImpact

/-- Helper: the `try`/`except Exception` wrapping of `run()` means no
modeled (Exception-derived) failure escapes and the return value is always
`None`, whatever the environment. -/
theorem runImpact_normal_return (env : Env) :
    (runImpact env).raised = none ∧ (runImpact env).retval = none := by
  obtain ⟨files, po, hds, hpa, pc, ps, ppf, paf, rif, fnf, cm, idata⟩ := env
  cases files with
  | nil => simp [runImpact]
  | cons a l =>
    rcases htb : runTryBody
        ⟨a :: l, po, hds, hpa, pc, ps, ppf, paf, rif, fnf, cm, idata⟩ with
      ⟨evs, _ | exc, d⟩ <;>
      simp [runImpact, htb]

/-- C4 counterexample: a template-rendering failure in the prediction step
does not cross `run()`'s boundary.  `run()` catches it, publishes the
best-effort failure notice, removes the marker and returns normally —
refuting the claim that TemplateRenderError propagates as a loud
failure. -/
theorem run_template_error_not_propagated :
    runImpact envTemplateError =
      ⟨[Event.publishTemp progressText, Event.publishComment failureNotice,
        Event.removeInitial], none, none, none⟩ := by
  rfl

/-- C4 (amended): no condition at all — TemplateRenderError included —
crosses `run()`'s boundary as an exception: the blanket
`except Exception` absorbs every modeled failure into logging plus a
best-effort notification, and `run()` always returns `None` normally. -/
theorem run_absorbs_every_failure (env : Env) :
    (runImpact env).raised = none ∧ (runImpact env).retval = none :=
  runImpact_normal_return env

end DeployImpact

namespace DeployImpact

/-- C9 counterexample: an internal failure during the analysis — here the
prediction step raising — is absorbed by `run()`, so the endpoint returns
a `result` payload (the placeholder text) with status 200, not an `error`
payload with a non-200 status. -/
theorem api_internal_run_failure_returns_200 :
    apiAnalyze (some "https://host/pr/1") envRunFailure none =
      (ApiPayload.result "No analysis result available", 200) := by
  rfl

/-- C9 (amended): missing `pr_url` yields an error payload with status
400; an exception raised while setting up or constructing the analysis
yields an error payload with status 500; a successful analysis yields a
result payload with status 200 carrying the report; but a failure
absorbed inside `run()` yields a result payload with status 200 carrying
the placeholder text, not an error. -/
theorem api_analyze_contract (env env2 : Env) (u msg s : String) (e : PyExc)
    (hu : u ≠ "") (hf : env.files ≠ [])
    (hstep : env.predictionStep = .predicted s) (hs : s ≠ "")
    (hf2 : env2.files ≠ []) (hstep2 : env2.predictionStep = .raised e)
    (hdata : env2.initialData = none) :
    (∀ f, apiAnalyze none env f =
      (ApiPayload.error "PR URL is required", 400)) ∧
    apiAnalyze (some u) env (some msg) = (ApiPayload.error msg, 500) ∧
    apiAnalyze (some u) env none =
      (ApiPayload.result (prepareDeploymentImpactAnalysis s), 200) ∧
    apiAnalyze (some u) env2 none =
      (ApiPayload.result "No analysis result available", 200) := by
  have hue : u.isEmpty = false := by
    cases h : u.isEmpty
    · rfl
    · exact absurd ((String.isEmpty_iff u).mp h) hu
  have hse : s.isEmpty = false := by
    cases h : s.isEmpty
    · rfl
    · exact absurd ((String.isEmpty_iff s).mp h) hs
  refine ⟨fun f => rfl, by simp [apiAnalyze, pyFalsy, hue], ?_, ?_⟩
  · obtain ⟨files, po, hds, hpa, pc, ps, ppf, paf, rif, fnf, cm, idata⟩ := env
    subst hstep
    cases files with
    | nil => exact absurd rfl hf
    | cons a l =>
      cases cm <;>
        simp [apiAnalyze, pyFalsy, hue, runAnalysis, runImpact, runTryBody,
          predEvents, predValue, hse]
  · obtain ⟨files, po, hds, hpa, pc, ps, ppf, paf, rif, fnf, cm, idata⟩ := env2
    subst hstep2; subst hdata
    cases files with
    | nil => exact absurd rfl hf2
    | cons a l =>
      simp [apiAnalyze, pyFalsy, hue, runAnalysis, runImpact, runTryBody,
        runHandler, predEvents, predValue]

/-- Witness for C9 at concrete inputs. -/
theorem api_analyze_contract_witness :
    (apiAnalyze none envNoPublish none =
      (ApiPayload.error "PR URL is required", 400)) ∧
    apiAnalyze (some "https://host/pr/1") envNoPublish (some "boom") =
      (ApiPayload.error "boom", 500) ∧
    apiAnalyze (some "https://host/pr/1") envNoPublish none =
      (ApiPayload.result (prepareDeploymentImpactAnalysis "Risk: Low"),
       200) ∧
    apiAnalyze (some "https://host/pr/1") envRunFailure none =
      (ApiPayload.result "No analysis result available", 200) := by
  have h := api_analyze_contract envNoPublish envRunFailure
    "https://host/pr/1" "boom" "Risk: Low"
    (.nameError "default_system_prompt") (by decide)
    (by simp [envNoPublish]) rfl (by decide) (by simp [envRunFailure]) rfl
    rfl
  exact ⟨h.1 none, h.2.1, h.2.2.1, h.2.2.2⟩

/-- C10: `run()` returns `None` on every path — the report is never the
return value; when publishing is disabled and a prediction succeeds the
report is conveyed only through the shared settings object's artifact
slot; and `__init__` forces `config.enable_ai_metadata` to `False`
whenever the metadata conditions are not all met. -/
theorem run_frame_effects (env : Env) (s : String) :
    (runImpact env).retval = none ∧
    (env.publishOutput = false → env.files ≠ [] →
      env.predictionStep = .predicted s → s ≠ "" →
      (runImpact env).artifactData =
        some (prepareDeploymentImpactAnalysis s)) ∧
    (∀ d a m : Bool, (d && a && m) = false →
      constructorEnableAiMetadata d a m = false) := by
  refine ⟨(runImpact_normal_return env).2, ?_, ?_⟩
  · intro hpo hf hstep hs
    have hse : s.isEmpty = false := by
      cases h : s.isEmpty
      · rfl
      · exact absurd ((String.isEmpty_iff s).mp h) hs
    obtain ⟨files, po, hds, hpa, pc, ps, ppf, paf, rif, fnf, cm, idata⟩ := env
    subst hstep; subst hpo
    cases files with
    | nil => exact absurd rfl hf
    | cons a l =>
      cases cm <;>
        simp [runImpact, runTryBody, predEvents, predValue, pyFalsy, hse]
  · intro d a m h
    simp [constructorEnableAiMetadata, h]

/-- Witness for C10: the web-endpoint configuration (publishing disabled),
a successful prediction, and unmet metadata conditions. -/
theorem run_frame_effects_witness :
    (runImpact envNoPublish).retval = none ∧
    (runImpact envNoPublish).artifactData =
      some (prepareDeploymentImpactAnalysis "Risk: Low") ∧
    constructorEnableAiMetadata false true true = false := by
  have h := run_frame_effects envNoPublish "Risk: Low"
  exact ⟨h.1, h.2.1 rfl (by simp [envNoPublish]) rfl (by decide),
    h.2.2 false true true rfl⟩

end DeployImpact
